import Mathlib

/-!
# JNI bridge of the OpenT2T node engine (`NodeEngine.cpp`)

A shallow embedding of `node/src/android/plugin/src/main/jni/NodeEngine.cpp`.

* A native entry point is a value of `Run`: the JNI / host / engine calls it performs before it
  returns (`events`), the calls performed afterwards by the callbacks it handed to the engine
  (`deferred`), and whether it returns or lets a C++ exception escape (`result`).
* The engine behind the handle is an `INodeEngine`: for each operation it says which callback
  invocations it makes before returning, whether it throws, and which callback invocations it makes
  later.
* `std::exception_ptr` is `Option NativeException`; `none` is the null pointer.
* Texts (`const char*`, `std::string`, the content of a `jstring`) are modelled by their characters;
  their byte encoding is outside the model.
-/

namespace OpenT2T

/-! ## Data model -/

/-- A C++ exception object, identified by its message. -/
structure NativeException where
  what : String
deriving DecidableEq, Repr

/-- A Java string object (`jstring`), identified by its characters. -/
structure JString where
  chars : String
deriving DecidableEq, Repr

/-- A Java throwable object (`jthrowable`). -/
structure JThrowable where
  className : String
  message : String
deriving DecidableEq, Repr

/-- The Java `NodeEngine` instance (`thiz`): its field `long node`. -/
structure JObject where
  node : Int
deriving DecidableEq, Repr

/-- A Java promise object handed to `start`, `stop` and `callScript`. -/
abbrev Promise := Nat

/-- Modelled from the spec: the enumeration `LogSeverity` of `Log.h`, which is missing from the
sources; the levels are Error, Warning, Info, Verbose, Trace. `unnamed raw` stands for a value of
the enumeration type that is none of the five enumerators (the `default:` label of a `switch`). -/
inductive LogSeverity where
  | Error | Warning | Info | Verbose | Trace
  | unnamed (raw : Int)
deriving DecidableEq, Repr

/-- What the native code does to its surroundings, one constructor per call. -/
inductive Event where
  | LogTrace (format : String) (args : List String)
  | android_log_print (priority : Nat) (tag : String) (format : String)
  | GetStringUTFChars (s : JString)
  | ReleaseStringUTFChars (s : JString) (chars : String)
  | NewStringUTF (chars : String)
  | ThrowNew (className : String) (message : String)
  | Throw (t : JThrowable)
  | resolvePromise (promise : Promise) (value : Option JString)
  | rejectPromise (promise : Promise) (t : JThrowable)
  | CallVoidMethod (method : String) (signature : String) (args : List JString)
  | DefineScriptFile (scriptFileName : String) (scriptCode : String)
  | Start (workingDirectory : String)
  | Stop
  | CallScript (scriptCode : String)
  | RegisterCallFromScript (scriptFunctionName : String)
deriving DecidableEq, Repr

/-- One invocation of a completion callback `void(std::exception_ptr ex)`: the argument, and what
`std::current_exception()` yields on the invoking thread at that moment. -/
structure Completion where
  ex : Option NativeException
  current : Option NativeException
deriving DecidableEq, Repr

/-- One invocation of a completion callback `void(std::string resultJson, std::exception_ptr ex)`. -/
structure ScriptCompletion where
  resultJson : String
  ex : Option NativeException
  current : Option NativeException
deriving DecidableEq, Repr

/-- One invocation of a call-from-script handler `void(std::string argsJson)`. -/
structure ScriptCall where
  argsJson : String
deriving DecidableEq, Repr

/-- What one engine operation does with the callback it is given. -/
structure Reply (α : Type) where
  /-- invocations of the callback before the operation returns -/
  sync : List α
  /-- the exception the operation throws, `none` when it returns -/
  thrown : Option NativeException
  /-- invocations of the callback after the entry point has returned -/
  later : List α

/-- The engine interface of `INodeEngine.h`, as seen from its caller. -/
structure INodeEngine where
  DefineScriptFile : String → String → Option NativeException
  Start : String → Reply Completion
  Stop : Reply Completion
  CallScript : String → Reply ScriptCompletion
  RegisterCallFromScript : String → Reply ScriptCall

/-- What the translation unit takes from outside: the width in bits of `long` and of a pointer on
the target, and `exceptionToJavaException` of `JniUtils.h`. -/
structure Ctx where
  longBits : Nat
  exceptionToJavaException : Option NativeException → JThrowable

/-! ## Native computations -/

/-- A native computation. -/
structure Run (α : Type) where
  /-- calls performed before the computation ends -/
  events : List Event
  /-- calls performed later, by callbacks handed to the engine -/
  deferred : List Event
  /-- the value, or the C++ exception that propagates -/
  result : Except NativeException α

/-- Return a value, doing nothing. -/
def Run.pure {α : Type} (a : α) : Run α := ⟨[], [], .ok a⟩

/-- Sequencing: the second computation runs only if the first did not throw. -/
def Run.bind {α β : Type} (m : Run α) (f : α → Run β) : Run β :=
  match m.result with
  | .ok a => ⟨m.events ++ (f a).events, m.deferred ++ (f a).deferred, (f a).result⟩
  | .error e => ⟨m.events, m.deferred, .error e⟩

instance : Monad Run where
  pure := Run.pure
  bind := Run.bind

/-- Perform one call. -/
def emit (e : Event) : Run Unit := ⟨[e], [], .ok ()⟩

/-- The block `try { body } catch (...) { handler }`; the handler sees the caught exception as
`std::current_exception()`. -/
def tryCatchAll (body : Run Unit) (handler : Option NativeException → Run Unit) : Run Unit :=
  match body.result with
  | .ok _ => body
  | .error e =>
    ⟨body.events ++ (handler (some e)).events, body.deferred ++ (handler (some e)).deferred,
      (handler (some e)).result⟩

/-- A call of an engine operation that takes a callback. -/
def engineCall {α : Type} (op : Event) (r : Reply α) (callback : α → List Event) : Run Unit :=
  ⟨op :: r.sync.flatMap callback, r.later.flatMap callback,
    match r.thrown with
    | none => .ok ()
    | some e => .error e⟩

/-! ## Handle storage -/

/-- The cast `reinterpret_cast<long>(nodeEngine)`: the pointer bits read as a signed `long`. -/
def ptrToLong (w : Nat) (p : Nat) : Int :=
  if p % 2 ^ w < 2 ^ (w - 1) then ((p % 2 ^ w : Nat) : Int) else ((p % 2 ^ w : Nat) : Int) - 2 ^ w

/-- The cast `reinterpret_cast<INodeEngine*>(jlong)`: the low pointer bits of the value. -/
def longToPtr (w : Nat) (v : Int) : Nat :=
  (v % 2 ^ w).toNat

/-- Store the handle: `setNodeEngine`. -/
def setNodeEngine (ctx : Ctx) (_thiz : JObject) (nodeEngine : Nat) : JObject :=
  { node := ptrToLong ctx.longBits nodeEngine }

/-- Read the handle: `getNodeEngine`. A null handle raises `IllegalStateException`. -/
def getNodeEngine (ctx : Ctx) (thiz : JObject) : Run Nat :=
  let nodeEngine := longToPtr ctx.longBits thiz.node
  if nodeEngine = 0 then
    ⟨[.ThrowNew "java/lang/IllegalStateException" "Node engine not initialized"], [], .ok nodeEngine⟩
  else
    ⟨[], [], .ok nodeEngine⟩

/-! ## Logging -/

/-- Priority `ANDROID_LOG_INFO` of `android/log.h`. -/
def ANDROID_LOG_INFO : Nat := 4

/-- Priority `ANDROID_LOG_WARN` of `android/log.h`. -/
def ANDROID_LOG_WARN : Nat := 5

/-- Priority `ANDROID_LOG_ERROR` of `android/log.h`. -/
def ANDROID_LOG_ERROR : Nat := 6

/-- The process-wide log configuration set through `SetLogLevel` and `SetLogHandler`. -/
structure LogConfig where
  level : LogSeverity
  handler : LogSeverity → String → List Event

/-- The lambda passed to `SetLogHandler`. -/
def logHandler (severity : LogSeverity) (message : String) : List Event :=
  let logTag := "OpenT2T.NodeEngine.JNI"
  let androidLogLevel :=
    match severity with
    | .Error => ANDROID_LOG_ERROR
    | .Warning => ANDROID_LOG_WARN
    | .Info => ANDROID_LOG_INFO
    | .Verbose => ANDROID_LOG_ERROR
    | .Trace => ANDROID_LOG_ERROR
    | .unnamed _ => ANDROID_LOG_ERROR
  [.android_log_print androidLogLevel logTag message]

/-- The entry point `staticInit`; `DEBUG` is the build flag. -/
def Java_io_opent2t_NodeEngine_staticInit (DEBUG : Bool) (_thiz : JObject) : LogConfig :=
  { level := if DEBUG then LogSeverity.Trace else LogSeverity.Info
    handler := logHandler }

/-! ## JNI calls -/

/-- The call `env->GetStringUTFChars(s, JNI_FALSE)`. -/
def GetStringUTFChars (s : JString) : Run String :=
  ⟨[.GetStringUTFChars s], [], .ok s.chars⟩

/-- The call `env->ReleaseStringUTFChars(s, chars)`. -/
def ReleaseStringUTFChars (s : JString) (chars : String) : Run Unit :=
  emit (.ReleaseStringUTFChars s chars)

/-- A call of `DefineScriptFile`, the engine operation without a callback. -/
def engineDefine (op : Event) (thrown : Option NativeException) : Run Unit :=
  ⟨[op], [],
    match thrown with
    | none => .ok ()
    | some e => .error e⟩

/-- The handler of every `catch (...)` of the file. -/
def rethrowToJava (ctx : Ctx) (current : Option NativeException) : Run Unit :=
  emit (.Throw (ctx.exceptionToJavaException current))

/-! ## Callbacks handed to the engine -/

/-- The completion lambda of `start`. -/
def startOnComplete (ctx : Ctx) (promise : Promise) (c : Completion) : List Event :=
  if c.ex = none then
    [.resolvePromise promise none]
  else
    [.rejectPromise promise (ctx.exceptionToJavaException c.current)]

/-- The completion lambda of `stop`. -/
def stopOnComplete (ctx : Ctx) (promise : Promise) (c : Completion) : List Event :=
  if c.ex = none then
    [.resolvePromise promise none]
  else
    [.rejectPromise promise (ctx.exceptionToJavaException c.current)]

/-- The completion lambda of `callScript`. -/
def callScriptOnComplete (ctx : Ctx) (promise : Promise) (c : ScriptCompletion) : List Event :=
  if c.ex = none then
    let resultJsonString : JString := ⟨c.resultJson⟩
    [.NewStringUTF c.resultJson, .resolvePromise promise (some resultJsonString)]
  else
    [.rejectPromise promise (ctx.exceptionToJavaException c.current)]

/-- The handler lambda of `registerCallFromScript`. -/
def callFromScriptHandler (scriptFunctionName : JString) (c : ScriptCall) : List Event :=
  let argsJsonString : JString := ⟨c.argsJson⟩
  [.NewStringUTF c.argsJson,
   .CallVoidMethod "raiseCallFromScript" "(Ljava/lang/String;Ljava/lang/String;)V"
     [scriptFunctionName, argsJsonString]]

/-! ## Entry points -/

/-- The entry point `init`; `newEngine` is the pointer `new JXCoreEngine()` yields. -/
def Java_io_opent2t_NodeEngine_init (ctx : Ctx) (newEngine : Nat) (thiz : JObject) : Run JObject := do
  emit (.LogTrace "init()" [])
  let nodeEngine := newEngine
  pure (setNodeEngine ctx thiz nodeEngine)

/-- The entry point `defineScriptFile`. -/
def Java_io_opent2t_NodeEngine_defineScriptFile (ctx : Ctx) (engine : INodeEngine) (thiz : JObject)
    (scriptFileName scriptCode : JString) : Run Unit := do
  let scriptFileNameChars ← GetStringUTFChars scriptFileName
  let scriptCodeChars ← GetStringUTFChars scriptCode
  emit (.LogTrace "defineScriptFile(\"%s\", \"...\")" [scriptFileNameChars])
  let nodeEngine ← getNodeEngine ctx thiz
  if nodeEngine ≠ 0 then
    tryCatchAll
      (engineDefine (.DefineScriptFile scriptFileNameChars scriptCodeChars)
        (engine.DefineScriptFile scriptFileNameChars scriptCodeChars))
      (rethrowToJava ctx)
  ReleaseStringUTFChars scriptFileName scriptFileNameChars
  ReleaseStringUTFChars scriptCode scriptCodeChars

/-- The entry point `start`. -/
def Java_io_opent2t_NodeEngine_start (ctx : Ctx) (engine : INodeEngine) (thiz : JObject)
    (promise : Promise) (workingDirectory : JString) : Run Unit := do
  let workingDirectoryChars ← GetStringUTFChars workingDirectory
  emit (.LogTrace "start(\"%s\")" [workingDirectoryChars])
  let nodeEngine ← getNodeEngine ctx thiz
  if nodeEngine ≠ 0 then
    tryCatchAll
      (engineCall (.Start workingDirectoryChars) (engine.Start workingDirectoryChars)
        (startOnComplete ctx promise))
      (rethrowToJava ctx)
  ReleaseStringUTFChars workingDirectory workingDirectoryChars

/-- The entry point `stop`. -/
def Java_io_opent2t_NodeEngine_stop (ctx : Ctx) (engine : INodeEngine) (thiz : JObject)
    (promise : Promise) : Run Unit := do
  emit (.LogTrace "stop()" [])
  let nodeEngine ← getNodeEngine ctx thiz
  if nodeEngine ≠ 0 then
    tryCatchAll
      (engineCall .Stop engine.Stop (stopOnComplete ctx promise))
      (rethrowToJava ctx)

/-- The entry point `callScript`. -/
def Java_io_opent2t_NodeEngine_callScript (ctx : Ctx) (engine : INodeEngine) (thiz : JObject)
    (promise : Promise) (scriptCode : JString) : Run Unit := do
  let scriptCodeChars ← GetStringUTFChars scriptCode
  emit (.LogTrace "callScript(\"%s\")" [scriptCodeChars])
  let nodeEngine ← getNodeEngine ctx thiz
  if nodeEngine ≠ 0 then
    tryCatchAll
      (engineCall (.CallScript scriptCodeChars) (engine.CallScript scriptCodeChars)
        (callScriptOnComplete ctx promise))
      (rethrowToJava ctx)
  ReleaseStringUTFChars scriptCode scriptCodeChars
  emit (.resolvePromise promise none)

/-- The entry point `registerCallFromScript`. -/
def Java_io_opent2t_NodeEngine_registerCallFromScript (ctx : Ctx) (engine : INodeEngine)
    (thiz : JObject) (scriptFunctionName : JString) : Run Unit := do
  let scriptFunctionNameChars ← GetStringUTFChars scriptFunctionName
  emit (.LogTrace "registerCallFromScript(\"%s\")" [scriptFunctionNameChars])
  let nodeEngine ← getNodeEngine ctx thiz
  if nodeEngine ≠ 0 then
    tryCatchAll
      (engineCall (.RegisterCallFromScript scriptFunctionNameChars)
        (engine.RegisterCallFromScript scriptFunctionNameChars)
        (callFromScriptHandler scriptFunctionName))
      (rethrowToJava ctx)
  ReleaseStringUTFChars scriptFunctionName scriptFunctionNameChars

/-! ## Observations on a trace -/

/-- Whether the call settles a promise. -/
def Event.isSettle : Event → Bool
  | .resolvePromise _ _ => true
  | .rejectPromise _ _ => true
  | _ => false

/-- Whether the call is `resolvePromise`. -/
def Event.isResolve : Event → Bool
  | .resolvePromise _ _ => true
  | _ => false

/-- Whether the call raises a Java exception (`Throw` or `ThrowNew`). -/
def Event.isJavaThrow : Event → Bool
  | .Throw _ => true
  | .ThrowNew _ _ => true
  | _ => false

/-- Whether the call is an operation of the engine. -/
def Event.isEngineOp : Event → Bool
  | .DefineScriptFile _ _ => true
  | .Start _ => true
  | .Stop => true
  | .CallScript _ => true
  | .RegisterCallFromScript _ => true
  | _ => false

/-- The strings acquired with `GetStringUTFChars`, each with the characters obtained, in order. -/
def acquired (t : List Event) : List (JString × String) :=
  t.filterMap fun e =>
    match e with
    | .GetStringUTFChars s => some (s, s.chars)
    | _ => none

/-- The strings released with `ReleaseStringUTFChars`, each with the characters handed back, in
order. -/
def released (t : List Event) : List (JString × String) :=
  t.filterMap fun e =>
    match e with
    | .ReleaseStringUTFChars s chars => some (s, chars)
    | _ => none

/-- The promise settlements of a trace. -/
def settlements (t : List Event) : List Event := t.filter Event.isSettle

/-- The `resolvePromise` calls of a trace. -/
def resolves (t : List Event) : List Event := t.filter Event.isResolve

/-- The Java exceptions raised in a trace. -/
def javaThrows (t : List Event) : List Event := t.filter Event.isJavaThrow

/-- The engine operations invoked in a trace. -/
def engineOps (t : List Event) : List Event := t.filter Event.isEngineOp

/-- A sample context for evaluating the model: a 64-bit target, and a converter that keeps the
message of the exception it is given. -/
def sampleCtx : Ctx :=
  { longBits := 64
    exceptionToJavaException := fun e =>
      match e with
      | some x => ⟨"java/lang/RuntimeException", x.what⟩
      | none => ⟨"java/lang/RuntimeException", ""⟩ }

/-- A sample engine: every operation returns at once; `CallScript` completes later with `"1"`,
`Start` and `Stop` complete later with success, a registered function is called later once. -/
def sampleEngine : INodeEngine :=
  { DefineScriptFile := fun _ _ => none
    Start := fun _ => ⟨[], none, [⟨none, none⟩]⟩
    Stop := ⟨[], none, [⟨none, none⟩]⟩
    CallScript := fun _ => ⟨[], none, [⟨"1", none, none⟩]⟩
    RegisterCallFromScript := fun _ => ⟨[], none, [⟨"\x7b\"a\":1\x7d"⟩]⟩ }

/-- A sample engine that is not running: every operation throws at once. -/
def failingEngine : INodeEngine :=
  { DefineScriptFile := fun _ _ => some ⟨"InvalidStateError"⟩
    Start := fun _ => ⟨[], some ⟨"InvalidStateError"⟩, []⟩
    Stop := ⟨[], some ⟨"InvalidStateError"⟩, []⟩
    CallScript := fun _ => ⟨[], some ⟨"InvalidStateError"⟩, []⟩
    RegisterCallFromScript := fun _ => ⟨[], some ⟨"InvalidStateError"⟩, []⟩ }


/-! ## Auxiliary lemmas -/

theorem Run.bind_eq {α β : Type} (m : Run α) (f : α → Run β) : (m >>= f) = Run.bind m f := rfl

theorem Run.pure_eq {α : Type} (a : α) : (Pure.pure a : Run α) = Run.pure a := rfl

theorem longToPtr_ptrToLong (w p : Nat) : longToPtr w (ptrToLong w p) = p % 2 ^ w := by
  have hm : (2 : Int) ^ w = ((2 ^ w : Nat) : Int) := by push_cast; rfl
  have hpos : 0 < 2 ^ w := Nat.pow_pos (by decide)
  have hlt : p % 2 ^ w < 2 ^ w := Nat.mod_lt _ hpos
  unfold longToPtr ptrToLong
  rw [hm]
  generalize 2 ^ w = m at *
  generalize p % m = q at *
  split
  · rw [Int.emod_eq_of_lt (by omega) (by omega)]; simp
  · have hq : ((q : Int) - (m : Int)) % (m : Int) = (q : Int) := by
      rw [Int.sub_emod, Int.emod_self, sub_zero, Int.emod_emod_of_dvd _ (dvd_refl _)]
      exact Int.emod_eq_of_lt (by omega) (by omega)
    rw [hq]; simp

theorem filter_flatMap_nil {α : Type} (p : Event → Bool) (callback : α → List Event)
    (h : ∀ a, (callback a).filter p = []) (l : List α) :
    (l.flatMap callback).filter p = [] := by
  induction l with
  | nil => rfl
  | cons a l ih => simp [List.flatMap_cons, List.filter_append, h a, ih]

theorem startOnComplete_javaThrows (ctx : Ctx) (promise : Promise) (c : Completion) :
    (startOnComplete ctx promise c).filter Event.isJavaThrow = [] := by
  unfold startOnComplete; split <;> rfl

theorem stopOnComplete_javaThrows (ctx : Ctx) (promise : Promise) (c : Completion) :
    (stopOnComplete ctx promise c).filter Event.isJavaThrow = [] := by
  unfold stopOnComplete; split <;> rfl

theorem callScriptOnComplete_javaThrows (ctx : Ctx) (promise : Promise) (c : ScriptCompletion) :
    (callScriptOnComplete ctx promise c).filter Event.isJavaThrow = [] := by
  unfold callScriptOnComplete; split <;> rfl

theorem callFromScriptHandler_javaThrows (n : JString) (c : ScriptCall) :
    (callFromScriptHandler n c).filter Event.isJavaThrow = [] := rfl

/-- C1 (fails on the code): when the engine accepts `CallScript` and later completes it once, the
entry point has already resolved the promise with null before it returned, and the completion
settles it a second time: two settlements in total. -/
theorem callScript_settles_twice (ctx : Ctx) (engine : INodeEngine) (thiz : JObject)
    (promise : Promise) (scriptCode : JString) (c : ScriptCompletion)
    (hnode : longToPtr ctx.longBits thiz.node ≠ 0)
    (hsync : (engine.CallScript scriptCode.chars).sync = [])
    (hthrown : (engine.CallScript scriptCode.chars).thrown = none)
    (hlater : (engine.CallScript scriptCode.chars).later = [c]) :
    settlements (Java_io_opent2t_NodeEngine_callScript ctx engine thiz promise scriptCode).events
        = [.resolvePromise promise none]
      ∧ (settlements
          (Java_io_opent2t_NodeEngine_callScript ctx engine thiz promise scriptCode).deferred).length
        = 1
      ∧ (settlements
          ((Java_io_opent2t_NodeEngine_callScript ctx engine thiz promise scriptCode).events ++
           (Java_io_opent2t_NodeEngine_callScript ctx engine thiz promise scriptCode).deferred)).length
        = 2 := by
  have hcb : (settlements (callScriptOnComplete ctx promise c)).length = 1 := by
    unfold callScriptOnComplete settlements; split <;> rfl
  have hev : settlements
      (Java_io_opent2t_NodeEngine_callScript ctx engine thiz promise scriptCode).events
        = [.resolvePromise promise none] := by
    simp [Java_io_opent2t_NodeEngine_callScript, Run.bind_eq, Run.pure_eq, Run.bind, Run.pure,
      emit, GetStringUTFChars, ReleaseStringUTFChars, getNodeEngine, tryCatchAll, engineCall,
      rethrowToJava, hnode, hsync, hthrown, settlements, Event.isSettle]
  have hde : (Java_io_opent2t_NodeEngine_callScript ctx engine thiz promise scriptCode).deferred
        = callScriptOnComplete ctx promise c := by
    simp [Java_io_opent2t_NodeEngine_callScript, Run.bind_eq, Run.pure_eq, Run.bind, Run.pure,
      emit, GetStringUTFChars, ReleaseStringUTFChars, getNodeEngine, tryCatchAll, engineCall,
      rethrowToJava, hnode, hthrown, hlater]
  refine ⟨hev, by rw [hde]; exact hcb, ?_⟩
  have happ : settlements
      ((Java_io_opent2t_NodeEngine_callScript ctx engine thiz promise scriptCode).events ++
       (Java_io_opent2t_NodeEngine_callScript ctx engine thiz promise scriptCode).deferred)
      = settlements (Java_io_opent2t_NodeEngine_callScript ctx engine thiz promise scriptCode).events
        ++ settlements
          (Java_io_opent2t_NodeEngine_callScript ctx engine thiz promise scriptCode).deferred := by
    simp [settlements, List.filter_append]
  rw [happ, hev, hde, List.length_append, hcb]
  rfl

/-- C1, at a concrete input: a running engine that evaluates `x` to `"1"`. -/
theorem callScript_settles_twice_witness :
    settlements (Java_io_opent2t_NodeEngine_callScript sampleCtx sampleEngine ⟨1234⟩ 7 ⟨"x"⟩).events
        = [.resolvePromise 7 none]
      ∧ (settlements
          (Java_io_opent2t_NodeEngine_callScript sampleCtx sampleEngine ⟨1234⟩ 7 ⟨"x"⟩).deferred).length
        = 1
      ∧ (settlements
          ((Java_io_opent2t_NodeEngine_callScript sampleCtx sampleEngine ⟨1234⟩ 7 ⟨"x"⟩).events ++
           (Java_io_opent2t_NodeEngine_callScript sampleCtx sampleEngine ⟨1234⟩ 7 ⟨"x"⟩).deferred)).length
        = 2 :=
  callScript_settles_twice sampleCtx sampleEngine ⟨1234⟩ 7 ⟨"x"⟩ ⟨"1", none, none⟩
    (by decide) rfl rfl rfl

/-- C2 (fails on the code): on a non-null `ex` each completion lambda rejects the promise with the
conversion of `std::current_exception()`, whatever `ex` is; with no exception in flight the
message of `ex` does not reach the host. -/
theorem onComplete_rejects_with_current_exception (ctx : Ctx) (promise : Promise)
    (e : NativeException) (current : Option NativeException) (resultJson : String) :
    startOnComplete ctx promise ⟨some e, current⟩
        = [.rejectPromise promise (ctx.exceptionToJavaException current)]
      ∧ stopOnComplete ctx promise ⟨some e, current⟩
        = [.rejectPromise promise (ctx.exceptionToJavaException current)]
      ∧ callScriptOnComplete ctx promise ⟨resultJson, some e, current⟩
        = [.rejectPromise promise (ctx.exceptionToJavaException current)]
      ∧ startOnComplete sampleCtx 7 ⟨some ⟨"boom"⟩, none⟩
        ≠ [.rejectPromise 7 (sampleCtx.exceptionToJavaException (some ⟨"boom"⟩))] := by
  refine ⟨rfl, rfl, rfl, by decide⟩

/-- C3 (fails on the code): when the engine's `CallScript` throws, the entry point converts the
exception and then still calls `resolvePromise(promise, null)` before it returns. -/
theorem callScript_resolves_after_throw (ctx : Ctx) (engine : INodeEngine) (thiz : JObject)
    (promise : Promise) (scriptCode : JString) (e : NativeException)
    (hnode : longToPtr ctx.longBits thiz.node ≠ 0)
    (hthrown : (engine.CallScript scriptCode.chars).thrown = some e) :
    Event.resolvePromise promise none ∈
      resolves (Java_io_opent2t_NodeEngine_callScript ctx engine thiz promise scriptCode).events := by
  simp [Java_io_opent2t_NodeEngine_callScript, Run.bind_eq, Run.pure_eq, Run.bind, Run.pure, emit,
    GetStringUTFChars, ReleaseStringUTFChars, getNodeEngine, tryCatchAll, engineCall,
    rethrowToJava, hnode, hthrown, resolves, Event.isResolve]

/-- C3, at a concrete input: an engine that is not running and throws `InvalidStateError`. -/
theorem callScript_resolves_after_throw_witness :
    Event.resolvePromise 7 none ∈
      resolves (Java_io_opent2t_NodeEngine_callScript sampleCtx failingEngine ⟨1234⟩ 7 ⟨"x"⟩).events :=
  callScript_resolves_after_throw sampleCtx failingEngine ⟨1234⟩ 7 ⟨"x"⟩ ⟨"InvalidStateError"⟩
    (by decide) rfl

/-- C4 (as stated, fails): `stop` on a host object whose handle is 0 does not resolve the promise
and does raise a Java exception. -/
theorem stop_without_engine_counterexample :
    ¬ (resolves
          ((Java_io_opent2t_NodeEngine_stop sampleCtx sampleEngine ⟨0⟩ 7).events ++
           (Java_io_opent2t_NodeEngine_stop sampleCtx sampleEngine ⟨0⟩ 7).deferred) ≠ []
        ∧ javaThrows
          ((Java_io_opent2t_NodeEngine_stop sampleCtx sampleEngine ⟨0⟩ 7).events ++
           (Java_io_opent2t_NodeEngine_stop sampleCtx sampleEngine ⟨0⟩ 7).deferred) = []) := by
  decide

/-- C4 (amended): `stop` on a host object whose handle is null invokes no engine operation, never
settles the promise, raises exactly one `IllegalStateException` with the message
"Node engine not initialized", and returns normally. -/
theorem stop_without_engine (ctx : Ctx) (engine : INodeEngine) (thiz : JObject)
    (promise : Promise) (hnode : longToPtr ctx.longBits thiz.node = 0) :
    engineOps
        ((Java_io_opent2t_NodeEngine_stop ctx engine thiz promise).events ++
         (Java_io_opent2t_NodeEngine_stop ctx engine thiz promise).deferred) = []
      ∧ settlements
        ((Java_io_opent2t_NodeEngine_stop ctx engine thiz promise).events ++
         (Java_io_opent2t_NodeEngine_stop ctx engine thiz promise).deferred) = []
      ∧ javaThrows
        ((Java_io_opent2t_NodeEngine_stop ctx engine thiz promise).events ++
         (Java_io_opent2t_NodeEngine_stop ctx engine thiz promise).deferred)
        = [.ThrowNew "java/lang/IllegalStateException" "Node engine not initialized"]
      ∧ (Java_io_opent2t_NodeEngine_stop ctx engine thiz promise).result = .ok () := by
  simp [Java_io_opent2t_NodeEngine_stop, Run.bind_eq, Run.pure_eq, Run.bind, Run.pure, emit,
    getNodeEngine, hnode, engineOps, settlements, javaThrows, Event.isEngineOp, Event.isSettle,
    Event.isJavaThrow]

/-- C4 (amended), at a concrete input: a host object on which `init` never ran. -/
theorem stop_without_engine_witness :
    engineOps
        ((Java_io_opent2t_NodeEngine_stop sampleCtx sampleEngine ⟨0⟩ 7).events ++
         (Java_io_opent2t_NodeEngine_stop sampleCtx sampleEngine ⟨0⟩ 7).deferred) = []
      ∧ settlements
        ((Java_io_opent2t_NodeEngine_stop sampleCtx sampleEngine ⟨0⟩ 7).events ++
         (Java_io_opent2t_NodeEngine_stop sampleCtx sampleEngine ⟨0⟩ 7).deferred) = []
      ∧ javaThrows
        ((Java_io_opent2t_NodeEngine_stop sampleCtx sampleEngine ⟨0⟩ 7).events ++
         (Java_io_opent2t_NodeEngine_stop sampleCtx sampleEngine ⟨0⟩ 7).deferred)
        = [.ThrowNew "java/lang/IllegalStateException" "Node engine not initialized"]
      ∧ (Java_io_opent2t_NodeEngine_stop sampleCtx sampleEngine ⟨0⟩ 7).result = .ok () :=
  stop_without_engine sampleCtx sampleEngine ⟨0⟩ 7 (by decide)

/-- C7: with a non-null handle, when the engine operation of `defineScriptFile`, `start`, `stop`,
`callScript` or `registerCallFromScript` throws a native exception `e`, the entry point returns
normally (`e` does not escape) and raises exactly one Java exception, the conversion of `e`. -/
theorem native_exception_becomes_java_exception (ctx : Ctx) (engine : INodeEngine)
    (thiz : JObject) (promise : Promise) (a b : JString) (e : NativeException)
    (hnode : longToPtr ctx.longBits thiz.node ≠ 0) :
    (engine.DefineScriptFile a.chars b.chars = some e →
        (Java_io_opent2t_NodeEngine_defineScriptFile ctx engine thiz a b).result = .ok ()
        ∧ javaThrows
            ((Java_io_opent2t_NodeEngine_defineScriptFile ctx engine thiz a b).events ++
             (Java_io_opent2t_NodeEngine_defineScriptFile ctx engine thiz a b).deferred)
          = [.Throw (ctx.exceptionToJavaException (some e))])
      ∧ ((engine.Start a.chars).thrown = some e →
        (Java_io_opent2t_NodeEngine_start ctx engine thiz promise a).result = .ok ()
        ∧ javaThrows
            ((Java_io_opent2t_NodeEngine_start ctx engine thiz promise a).events ++
             (Java_io_opent2t_NodeEngine_start ctx engine thiz promise a).deferred)
          = [.Throw (ctx.exceptionToJavaException (some e))])
      ∧ (engine.Stop.thrown = some e →
        (Java_io_opent2t_NodeEngine_stop ctx engine thiz promise).result = .ok ()
        ∧ javaThrows
            ((Java_io_opent2t_NodeEngine_stop ctx engine thiz promise).events ++
             (Java_io_opent2t_NodeEngine_stop ctx engine thiz promise).deferred)
          = [.Throw (ctx.exceptionToJavaException (some e))])
      ∧ ((engine.CallScript a.chars).thrown = some e →
        (Java_io_opent2t_NodeEngine_callScript ctx engine thiz promise a).result = .ok ()
        ∧ javaThrows
            ((Java_io_opent2t_NodeEngine_callScript ctx engine thiz promise a).events ++
             (Java_io_opent2t_NodeEngine_callScript ctx engine thiz promise a).deferred)
          = [.Throw (ctx.exceptionToJavaException (some e))])
      ∧ ((engine.RegisterCallFromScript a.chars).thrown = some e →
        (Java_io_opent2t_NodeEngine_registerCallFromScript ctx engine thiz a).result = .ok ()
        ∧ javaThrows
            ((Java_io_opent2t_NodeEngine_registerCallFromScript ctx engine thiz a).events ++
             (Java_io_opent2t_NodeEngine_registerCallFromScript ctx engine thiz a).deferred)
          = [.Throw (ctx.exceptionToJavaException (some e))]) := by
  have h1s := filter_flatMap_nil Event.isJavaThrow _ (startOnComplete_javaThrows ctx promise)
    (engine.Start a.chars).sync
  have h1l := filter_flatMap_nil Event.isJavaThrow _ (startOnComplete_javaThrows ctx promise)
    (engine.Start a.chars).later
  have h2s := filter_flatMap_nil Event.isJavaThrow _ (stopOnComplete_javaThrows ctx promise)
    engine.Stop.sync
  have h2l := filter_flatMap_nil Event.isJavaThrow _ (stopOnComplete_javaThrows ctx promise)
    engine.Stop.later
  have h3s := filter_flatMap_nil Event.isJavaThrow _ (callScriptOnComplete_javaThrows ctx promise)
    (engine.CallScript a.chars).sync
  have h3l := filter_flatMap_nil Event.isJavaThrow _ (callScriptOnComplete_javaThrows ctx promise)
    (engine.CallScript a.chars).later
  have h4s := filter_flatMap_nil Event.isJavaThrow _ (callFromScriptHandler_javaThrows a)
    (engine.RegisterCallFromScript a.chars).sync
  have h4l := filter_flatMap_nil Event.isJavaThrow _ (callFromScriptHandler_javaThrows a)
    (engine.RegisterCallFromScript a.chars).later
  refine ⟨?_, ?_, ?_, ?_, ?_⟩ <;> intro hthrown
  · simp [Java_io_opent2t_NodeEngine_defineScriptFile, Run.bind_eq, Run.pure_eq, Run.bind,
      Run.pure, emit, GetStringUTFChars, ReleaseStringUTFChars, getNodeEngine, tryCatchAll,
      engineDefine, rethrowToJava, hnode, hthrown, javaThrows, Event.isJavaThrow]
  · simp [Java_io_opent2t_NodeEngine_start, Run.bind_eq, Run.pure_eq, Run.bind,
      Run.pure, emit, GetStringUTFChars, ReleaseStringUTFChars, getNodeEngine, tryCatchAll,
      engineCall, rethrowToJava, hnode, hthrown, javaThrows, Event.isJavaThrow,
      List.filter_append, h1s, h1l]
  · simp [Java_io_opent2t_NodeEngine_stop, Run.bind_eq, Run.pure_eq, Run.bind,
      Run.pure, emit, getNodeEngine, tryCatchAll,
      engineCall, rethrowToJava, hnode, hthrown, javaThrows, Event.isJavaThrow,
      List.filter_append, h2s, h2l]
  · simp [Java_io_opent2t_NodeEngine_callScript, Run.bind_eq, Run.pure_eq, Run.bind,
      Run.pure, emit, GetStringUTFChars, ReleaseStringUTFChars, getNodeEngine, tryCatchAll,
      engineCall, rethrowToJava, hnode, hthrown, javaThrows, Event.isJavaThrow,
      List.filter_append, h3s, h3l]
  · simp [Java_io_opent2t_NodeEngine_registerCallFromScript, Run.bind_eq, Run.pure_eq, Run.bind,
      Run.pure, emit, GetStringUTFChars, ReleaseStringUTFChars, getNodeEngine, tryCatchAll,
      engineCall, rethrowToJava, hnode, hthrown, javaThrows, Event.isJavaThrow,
      List.filter_append, h4s, h4l]

/-- C7, at a concrete input: an engine whose every operation throws `InvalidStateError`. -/
theorem native_exception_becomes_java_exception_witness :
    ((Java_io_opent2t_NodeEngine_defineScriptFile sampleCtx failingEngine ⟨1234⟩ ⟨"a.js"⟩
          ⟨"x"⟩).result = .ok ()
        ∧ javaThrows
            ((Java_io_opent2t_NodeEngine_defineScriptFile sampleCtx failingEngine ⟨1234⟩ ⟨"a.js"⟩
                ⟨"x"⟩).events ++
             (Java_io_opent2t_NodeEngine_defineScriptFile sampleCtx failingEngine ⟨1234⟩ ⟨"a.js"⟩
                ⟨"x"⟩).deferred)
          = [.Throw ⟨"java/lang/RuntimeException", "InvalidStateError"⟩])
      ∧ ((Java_io_opent2t_NodeEngine_start sampleCtx failingEngine ⟨1234⟩ 7 ⟨"a.js"⟩).result
          = .ok ()
        ∧ javaThrows
            ((Java_io_opent2t_NodeEngine_start sampleCtx failingEngine ⟨1234⟩ 7 ⟨"a.js"⟩).events ++
             (Java_io_opent2t_NodeEngine_start sampleCtx failingEngine ⟨1234⟩ 7 ⟨"a.js"⟩).deferred)
          = [.Throw ⟨"java/lang/RuntimeException", "InvalidStateError"⟩])
      ∧ ((Java_io_opent2t_NodeEngine_stop sampleCtx failingEngine ⟨1234⟩ 7).result = .ok ()
        ∧ javaThrows
            ((Java_io_opent2t_NodeEngine_stop sampleCtx failingEngine ⟨1234⟩ 7).events ++
             (Java_io_opent2t_NodeEngine_stop sampleCtx failingEngine ⟨1234⟩ 7).deferred)
          = [.Throw ⟨"java/lang/RuntimeException", "InvalidStateError"⟩])
      ∧ ((Java_io_opent2t_NodeEngine_callScript sampleCtx failingEngine ⟨1234⟩ 7 ⟨"a.js"⟩).result
          = .ok ()
        ∧ javaThrows
            ((Java_io_opent2t_NodeEngine_callScript sampleCtx failingEngine ⟨1234⟩ 7
                ⟨"a.js"⟩).events ++
             (Java_io_opent2t_NodeEngine_callScript sampleCtx failingEngine ⟨1234⟩ 7
                ⟨"a.js"⟩).deferred)
          = [.Throw ⟨"java/lang/RuntimeException", "InvalidStateError"⟩])
      ∧ ((Java_io_opent2t_NodeEngine_registerCallFromScript sampleCtx failingEngine ⟨1234⟩
            ⟨"a.js"⟩).result = .ok ()
        ∧ javaThrows
            ((Java_io_opent2t_NodeEngine_registerCallFromScript sampleCtx failingEngine ⟨1234⟩
                ⟨"a.js"⟩).events ++
             (Java_io_opent2t_NodeEngine_registerCallFromScript sampleCtx failingEngine ⟨1234⟩
                ⟨"a.js"⟩).deferred)
          = [.Throw ⟨"java/lang/RuntimeException", "InvalidStateError"⟩]) :=
  ⟨(native_exception_becomes_java_exception sampleCtx failingEngine ⟨1234⟩ 7 ⟨"a.js"⟩ ⟨"x"⟩
      ⟨"InvalidStateError"⟩ (by decide)).1 rfl,
   (native_exception_becomes_java_exception sampleCtx failingEngine ⟨1234⟩ 7 ⟨"a.js"⟩ ⟨"x"⟩
      ⟨"InvalidStateError"⟩ (by decide)).2.1 rfl,
   (native_exception_becomes_java_exception sampleCtx failingEngine ⟨1234⟩ 7 ⟨"a.js"⟩ ⟨"x"⟩
      ⟨"InvalidStateError"⟩ (by decide)).2.2.1 rfl,
   (native_exception_becomes_java_exception sampleCtx failingEngine ⟨1234⟩ 7 ⟨"a.js"⟩ ⟨"x"⟩
      ⟨"InvalidStateError"⟩ (by decide)).2.2.2.1 rfl,
   (native_exception_becomes_java_exception sampleCtx failingEngine ⟨1234⟩ 7 ⟨"a.js"⟩ ⟨"x"⟩
      ⟨"InvalidStateError"⟩ (by decide)).2.2.2.2 rfl⟩

/-- C8: `init` stores the freshly created engine on the host object, and for every non-null
handle `e` (a pointer of the target's width) `getNodeEngine` after `setNodeEngine(e)` returns
exactly `e` and raises no exception. -/
theorem getNodeEngine_setNodeEngine (ctx : Ctx) (thiz : JObject) (e : Nat)
    (hne : e ≠ 0) (hfit : e < 2 ^ ctx.longBits) :
    (Java_io_opent2t_NodeEngine_init ctx e thiz).result = .ok (setNodeEngine ctx thiz e)
      ∧ (getNodeEngine ctx (setNodeEngine ctx thiz e)).result = .ok e
      ∧ javaThrows (getNodeEngine ctx (setNodeEngine ctx thiz e)).events = [] := by
  have hrt : longToPtr ctx.longBits (ptrToLong ctx.longBits e) = e := by
    rw [longToPtr_ptrToLong, Nat.mod_eq_of_lt hfit]
  refine ⟨rfl, ?_, ?_⟩ <;> simp [getNodeEngine, setNodeEngine, hrt, hne, javaThrows]

/-- C8, at a concrete input: a 64-bit pointer with its top bit set, which is stored as a negative
`long`. -/
theorem getNodeEngine_setNodeEngine_witness :
    (setNodeEngine sampleCtx ⟨0⟩ (2 ^ 63 + 16)).node = -9223372036854775792
      ∧ (Java_io_opent2t_NodeEngine_init sampleCtx (2 ^ 63 + 16) ⟨0⟩).result
        = .ok (setNodeEngine sampleCtx ⟨0⟩ (2 ^ 63 + 16))
      ∧ (getNodeEngine sampleCtx (setNodeEngine sampleCtx ⟨0⟩ (2 ^ 63 + 16))).result
        = .ok (2 ^ 63 + 16)
      ∧ javaThrows (getNodeEngine sampleCtx (setNodeEngine sampleCtx ⟨0⟩ (2 ^ 63 + 16))).events
        = [] :=
  ⟨by decide, getNodeEngine_setNodeEngine sampleCtx ⟨0⟩ (2 ^ 63 + 16) (by decide) (by decide)⟩

/-- C9: when the handle stored on the host object is null, each of `defineScriptFile`, `start`,
`stop`, `callScript` and `registerCallFromScript` invokes no engine operation, raises exactly one
`java.lang.IllegalStateException` with the message "Node engine not initialized", and releases
every UTF string it acquired exactly once. -/
theorem null_handle_raises_and_releases (ctx : Ctx) (engine : INodeEngine) (thiz : JObject)
    (promise : Promise) (a b : JString) (hnode : longToPtr ctx.longBits thiz.node = 0) :
    (engineOps
          ((Java_io_opent2t_NodeEngine_defineScriptFile ctx engine thiz a b).events ++
           (Java_io_opent2t_NodeEngine_defineScriptFile ctx engine thiz a b).deferred) = []
        ∧ javaThrows
            ((Java_io_opent2t_NodeEngine_defineScriptFile ctx engine thiz a b).events ++
             (Java_io_opent2t_NodeEngine_defineScriptFile ctx engine thiz a b).deferred)
          = [.ThrowNew "java/lang/IllegalStateException" "Node engine not initialized"]
        ∧ acquired (Java_io_opent2t_NodeEngine_defineScriptFile ctx engine thiz a b).events
          = [(a, a.chars), (b, b.chars)]
        ∧ released (Java_io_opent2t_NodeEngine_defineScriptFile ctx engine thiz a b).events
          = [(a, a.chars), (b, b.chars)])
      ∧ (engineOps
          ((Java_io_opent2t_NodeEngine_start ctx engine thiz promise a).events ++
           (Java_io_opent2t_NodeEngine_start ctx engine thiz promise a).deferred) = []
        ∧ javaThrows
            ((Java_io_opent2t_NodeEngine_start ctx engine thiz promise a).events ++
             (Java_io_opent2t_NodeEngine_start ctx engine thiz promise a).deferred)
          = [.ThrowNew "java/lang/IllegalStateException" "Node engine not initialized"]
        ∧ acquired (Java_io_opent2t_NodeEngine_start ctx engine thiz promise a).events
          = [(a, a.chars)]
        ∧ released (Java_io_opent2t_NodeEngine_start ctx engine thiz promise a).events
          = [(a, a.chars)])
      ∧ (engineOps
          ((Java_io_opent2t_NodeEngine_stop ctx engine thiz promise).events ++
           (Java_io_opent2t_NodeEngine_stop ctx engine thiz promise).deferred) = []
        ∧ javaThrows
            ((Java_io_opent2t_NodeEngine_stop ctx engine thiz promise).events ++
             (Java_io_opent2t_NodeEngine_stop ctx engine thiz promise).deferred)
          = [.ThrowNew "java/lang/IllegalStateException" "Node engine not initialized"]
        ∧ acquired (Java_io_opent2t_NodeEngine_stop ctx engine thiz promise).events = []
        ∧ released (Java_io_opent2t_NodeEngine_stop ctx engine thiz promise).events = [])
      ∧ (engineOps
          ((Java_io_opent2t_NodeEngine_callScript ctx engine thiz promise a).events ++
           (Java_io_opent2t_NodeEngine_callScript ctx engine thiz promise a).deferred) = []
        ∧ javaThrows
            ((Java_io_opent2t_NodeEngine_callScript ctx engine thiz promise a).events ++
             (Java_io_opent2t_NodeEngine_callScript ctx engine thiz promise a).deferred)
          = [.ThrowNew "java/lang/IllegalStateException" "Node engine not initialized"]
        ∧ acquired (Java_io_opent2t_NodeEngine_callScript ctx engine thiz promise a).events
          = [(a, a.chars)]
        ∧ released (Java_io_opent2t_NodeEngine_callScript ctx engine thiz promise a).events
          = [(a, a.chars)])
      ∧ (engineOps
          ((Java_io_opent2t_NodeEngine_registerCallFromScript ctx engine thiz a).events ++
           (Java_io_opent2t_NodeEngine_registerCallFromScript ctx engine thiz a).deferred) = []
        ∧ javaThrows
            ((Java_io_opent2t_NodeEngine_registerCallFromScript ctx engine thiz a).events ++
             (Java_io_opent2t_NodeEngine_registerCallFromScript ctx engine thiz a).deferred)
          = [.ThrowNew "java/lang/IllegalStateException" "Node engine not initialized"]
        ∧ acquired (Java_io_opent2t_NodeEngine_registerCallFromScript ctx engine thiz a).events
          = [(a, a.chars)]
        ∧ released (Java_io_opent2t_NodeEngine_registerCallFromScript ctx engine thiz a).events
          = [(a, a.chars)]) := by
  refine ⟨?_, ?_, ?_, ?_, ?_⟩
  · simp [Java_io_opent2t_NodeEngine_defineScriptFile, Run.bind_eq, Run.pure_eq, Run.bind,
      Run.pure, emit, GetStringUTFChars, ReleaseStringUTFChars, getNodeEngine, hnode, engineOps,
      javaThrows, acquired, released, Event.isEngineOp, Event.isJavaThrow]
  · simp [Java_io_opent2t_NodeEngine_start, Run.bind_eq, Run.pure_eq, Run.bind,
      Run.pure, emit, GetStringUTFChars, ReleaseStringUTFChars, getNodeEngine, hnode, engineOps,
      javaThrows, acquired, released, Event.isEngineOp, Event.isJavaThrow]
  · simp [Java_io_opent2t_NodeEngine_stop, Run.bind_eq, Run.pure_eq, Run.bind,
      Run.pure, emit, getNodeEngine, hnode, engineOps,
      javaThrows, acquired, released, Event.isEngineOp, Event.isJavaThrow]
  · simp [Java_io_opent2t_NodeEngine_callScript, Run.bind_eq, Run.pure_eq, Run.bind,
      Run.pure, emit, GetStringUTFChars, ReleaseStringUTFChars, getNodeEngine, hnode, engineOps,
      javaThrows, acquired, released, Event.isEngineOp, Event.isJavaThrow]
  · simp [Java_io_opent2t_NodeEngine_registerCallFromScript, Run.bind_eq, Run.pure_eq, Run.bind,
      Run.pure, emit, GetStringUTFChars, ReleaseStringUTFChars, getNodeEngine, hnode, engineOps,
      javaThrows, acquired, released, Event.isEngineOp, Event.isJavaThrow]

/-- C9, at a concrete input: `defineScriptFile` and `callScript` on a host object on which `init`
never ran. -/
theorem null_handle_raises_and_releases_witness :
    (engineOps
          ((Java_io_opent2t_NodeEngine_defineScriptFile sampleCtx sampleEngine ⟨0⟩ ⟨"a.js"⟩
              ⟨"x"⟩).events ++
           (Java_io_opent2t_NodeEngine_defineScriptFile sampleCtx sampleEngine ⟨0⟩ ⟨"a.js"⟩
              ⟨"x"⟩).deferred) = []
        ∧ javaThrows
            ((Java_io_opent2t_NodeEngine_defineScriptFile sampleCtx sampleEngine ⟨0⟩ ⟨"a.js"⟩
                ⟨"x"⟩).events ++
             (Java_io_opent2t_NodeEngine_defineScriptFile sampleCtx sampleEngine ⟨0⟩ ⟨"a.js"⟩
                ⟨"x"⟩).deferred)
          = [.ThrowNew "java/lang/IllegalStateException" "Node engine not initialized"]
        ∧ acquired
            (Java_io_opent2t_NodeEngine_defineScriptFile sampleCtx sampleEngine ⟨0⟩ ⟨"a.js"⟩
              ⟨"x"⟩).events
          = [(⟨"a.js"⟩, "a.js"), (⟨"x"⟩, "x")]
        ∧ released
            (Java_io_opent2t_NodeEngine_defineScriptFile sampleCtx sampleEngine ⟨0⟩ ⟨"a.js"⟩
              ⟨"x"⟩).events
          = [(⟨"a.js"⟩, "a.js"), (⟨"x"⟩, "x")])
      ∧ (engineOps
          ((Java_io_opent2t_NodeEngine_callScript sampleCtx sampleEngine ⟨0⟩ 7 ⟨"a.js"⟩).events ++
           (Java_io_opent2t_NodeEngine_callScript sampleCtx sampleEngine ⟨0⟩ 7 ⟨"a.js"⟩).deferred)
          = []
        ∧ javaThrows
            ((Java_io_opent2t_NodeEngine_callScript sampleCtx sampleEngine ⟨0⟩ 7
                ⟨"a.js"⟩).events ++
             (Java_io_opent2t_NodeEngine_callScript sampleCtx sampleEngine ⟨0⟩ 7
                ⟨"a.js"⟩).deferred)
          = [.ThrowNew "java/lang/IllegalStateException" "Node engine not initialized"]
        ∧ acquired
            (Java_io_opent2t_NodeEngine_callScript sampleCtx sampleEngine ⟨0⟩ 7 ⟨"a.js"⟩).events
          = [(⟨"a.js"⟩, "a.js")]
        ∧ released
            (Java_io_opent2t_NodeEngine_callScript sampleCtx sampleEngine ⟨0⟩ 7 ⟨"a.js"⟩).events
          = [(⟨"a.js"⟩, "a.js")]) :=
  ⟨(null_handle_raises_and_releases sampleCtx sampleEngine ⟨0⟩ 7 ⟨"a.js"⟩ ⟨"x"⟩ (by decide)).1,
   (null_handle_raises_and_releases sampleCtx sampleEngine ⟨0⟩ 7 ⟨"a.js"⟩ ⟨"x"⟩
      (by decide)).2.2.2.1⟩

/-- C10: the log handler `staticInit` installs maps Error to `ANDROID_LOG_ERROR`, Warning to
`ANDROID_LOG_WARN`, Info to `ANDROID_LOG_INFO` and every other severity (Verbose, Trace, and any
value outside the enumerators) to `ANDROID_LOG_ERROR`; for every severity it makes exactly one
log call, under the tag "OpenT2T.NodeEngine.JNI", with the message. -/
theorem logHandler_priority (DEBUG : Bool) (thiz : JObject) (message : String) (raw : Int) :
    (Java_io_opent2t_NodeEngine_staticInit DEBUG thiz).handler .Error message
        = [.android_log_print ANDROID_LOG_ERROR "OpenT2T.NodeEngine.JNI" message]
      ∧ (Java_io_opent2t_NodeEngine_staticInit DEBUG thiz).handler .Warning message
        = [.android_log_print ANDROID_LOG_WARN "OpenT2T.NodeEngine.JNI" message]
      ∧ (Java_io_opent2t_NodeEngine_staticInit DEBUG thiz).handler .Info message
        = [.android_log_print ANDROID_LOG_INFO "OpenT2T.NodeEngine.JNI" message]
      ∧ (Java_io_opent2t_NodeEngine_staticInit DEBUG thiz).handler .Verbose message
        = [.android_log_print ANDROID_LOG_ERROR "OpenT2T.NodeEngine.JNI" message]
      ∧ (Java_io_opent2t_NodeEngine_staticInit DEBUG thiz).handler .Trace message
        = [.android_log_print ANDROID_LOG_ERROR "OpenT2T.NodeEngine.JNI" message]
      ∧ (Java_io_opent2t_NodeEngine_staticInit DEBUG thiz).handler (.unnamed raw) message
        = [.android_log_print ANDROID_LOG_ERROR "OpenT2T.NodeEngine.JNI" message] :=
  ⟨rfl, rfl, rfl, rfl, rfl, rfl⟩

end OpenT2T
